import Mathlib

/-
Verification of the profile-driven backup/archival CLI
(`spgill/backup/__init__.py`) against its natural-language specification.

The Python module is shallowly embedded below.  Pure computations (list
merging, argument construction, filename derivation, shell quoting) become
Lean functions; the side-effecting command handlers become functions that
return the ordered list of observable effects (printed lines, subprocess
invocations, pipeline stages, file operations) together with an optional
fatal outcome.  The environment a command runs against (which files exist,
what the snapshot query returned, free disk space, subprocess exit codes)
is passed in explicitly as an oracle record, mirroring exactly the points
where the Python code consults the outside world.

The repository ships only `__init__.py`; the sibling modules `helper`,
`command` and `config` that it imports are not among the sources.  Every
definition standing in for one of those missing functions carries a doc
comment starting with "Modelled from the spec:" and follows the
specification's wording; everything else is translated line by line from
`__init__.py` (line numbers in the comments refer to that file).
-/

namespace Spgill

/-! ## Generic string machinery (substring test, shell quoting) -/

/-- Test whether the character list `l` begins with `pat`
(`charsStartWith pat l`). -/
def charsStartWith : List Char → List Char → Bool
  | [], _ => true
  | _ :: _, [] => false
  | a :: as, b :: bs => (a == b) && charsStartWith as bs

/-- Test whether `pat` occurs contiguously somewhere in `l`
(`charsContain l pat`).  This models Python's `in` test on `bytes` and
`str` values (line 202 uses `b"null" in snapsCommand.stdout`). -/
def charsContain : List Char → List Char → Bool
  | _, [] => true
  | [], _ :: _ => false
  | c :: rest, q :: qs => charsStartWith (q :: qs) (c :: rest) || charsContain rest (q :: qs)

/-- String-level raw substring test: `strContains s pat` is Python's
`pat in s`. -/
def strContains (s pat : String) : Bool :=
  charsContain s.data pat.data

/-- Characters Python's `shlex.quote` leaves unquoted: ASCII alphanumerics,
underscore, and the punctuation `@ % + = : , . /` and `-` (CPython
`shlex._find_unsafe` with `re.ASCII`). -/
def shlexSafeChar (c : Char) : Bool :=
  (c.isAlphanum && c.toNat < 128) || c == '_' || c == '@' || c == '%' ||
    c == '+' || c == '=' || c == ':' || c == ',' || c == '.' || c == '/' || c == '-'

/-- CPython `shlex.quote`: the empty string becomes two apostrophes, a string
of safe characters is returned unchanged, anything else is wrapped in
apostrophes with each embedded apostrophe replaced by the five-character
sequence apostrophe, double quote, apostrophe, double quote, apostrophe. -/
def shlexQuote (s : String) : String :=
  if s = "" then "\x27\x27"
  else if s.data.all shlexSafeChar then s
  else
    "\x27" ++
      String.mk (s.data.foldr
        (fun c acc => if c == '\x27' then '\x27' :: '"' :: '\x27' :: '"' :: '\x27' :: acc
          else c :: acc) []) ++
      "\x27"

/-- CPython `shlex.join`: quote each token and join with single spaces
(line 94: `print(shlex.join(args))`). -/
def shlexJoin (args : List String) : String :=
  String.intercalate " " (args.map shlexQuote)

/-! ## Path and timestamp helpers (Python stdlib collaborators) -/

/-- Split a character list at every slash, keeping empty pieces — the
semantics of Python `str.split("/")`. -/
def splitOnSlash : List Char → List (List Char)
  | [] => [[]]
  | c :: rest =>
    let r := splitOnSlash rest
    if c = '/' then [] :: r
    else
      match r with
      | [] => [[c]]
      | h :: t => (c :: h) :: t

/-- Model of `pathlib.Path(s).name`: the final path component — the last
non-empty slash-separated piece (empty for a bare root).  Modelled for
plain POSIX path strings, which is what reaches it here (line 214). -/
def pathName (s : String) : String :=
  String.mk ((((splitOnSlash s.data).filter (fun t => t ≠ [])).getLast?).getD [])

/-- Model of `pathlib` path joining, for a directory string not ending in a
slash and a relative file name — the only shapes occurring in `cli_dump`
(lines 220 and 223). -/
def pathJoin (dir file : String) : String :=
  dir ++ "/" ++ file

/-- Model of `pathlib.Path.expanduser`, for paths without a leading tilde
(such paths are returned unchanged; no input considered here starts with a
tilde). -/
def expanduser (p : String) : String := p

/-- A wall-clock timestamp as carried by a parsed snapshot record (the
result of `datetime.datetime.fromisoformat` at lines 208-210). -/
structure Timestamp where
  year : Nat
  month : Nat
  day : Nat
  hour : Nat
  minute : Nat
  second : Nat
deriving DecidableEq

/-- Left-pad the decimal rendering of `n` with zeros to width `w`. -/
def padNat (w n : Nat) : String :=
  let s := toString n
  if s.length < w then String.mk (List.replicate (w - s.length) '0') ++ s else s

/-- Model of `datetime.strftime` with format `%Y%m%d%H%M%S` (line 213):
four-digit year followed by two-digit month, day, hour, minute, second, no
separators. -/
def strftimeYmdHMS (t : Timestamp) : String :=
  padNat 4 t.year ++ padNat 2 t.month ++ padNat 2 t.day ++
    padNat 2 t.hour ++ padNat 2 t.minute ++ padNat 2 t.second

/-! ## Data model (spec section 3, mirroring the configuration document) -/

/-- A named group nested under a profile: optional include/exclude pattern
lists.  An absent key in the YAML mapping is `none`. -/
structure Group where
  includes : Option (List String)
  excludes : Option (List String)
deriving DecidableEq

/-- A backup profile.  Field names follow the configuration keys read by the
source (`repo`, `tags`, `include`, `exclude`, `args`, `groups`); `include`
is a Lean keyword, hence `includes`/`excludes`.  `groups` is an association
list in mapping-iteration (insertion) order, matching Python dict order. -/
structure Profile where
  repo : String
  tags : Option (List String)
  includes : Option (List String)
  excludes : Option (List String)
  extraArgs : Option (List String)
  groups : List (String × Group)
deriving DecidableEq

/-- The `dump` options sub-mapping: optional cache directory and optional
password-file path. -/
structure DumpOptions where
  cache : Option String
  passwordFile : Option String
deriving DecidableEq

/-- The loaded configuration document: optional global cache directory, the
profile mapping (association list in insertion order), and the optional
dump options. -/
structure Config where
  cache : Option String
  profiles : List (String × Profile)
  dump : Option DumpOptions
deriving DecidableEq

/-- Association-list lookup, modelling Python `dict` key lookup / `in`. -/
def assocLookup {α : Type} : List (String × α) → String → Option α
  | [], _ => none
  | (k, v) :: rest, key => if k = key then some v else assocLookup rest key

/-! ## Observable effects and fatal outcomes -/

/-- One observable step of a command handler, in program order:
terminal output (via `helper.printLine`, `helper.printWarning`,
`helper.printNestedLine`, or a bare `print`), a foreground or captured
engine invocation, a dump pipeline execution, a metered file copy, or a
file deletion. -/
inductive Eff where
  | line (s : String)
  | warn (s : String)
  | nested (s : String)
  | out (s : String)
  | resticFg (args : List String)
  | resticCaptured (args : List String)
  | dumpPipe (resticArgs : List String) (outFile : String)
  | copyFile (src : String) (dst : String)
  | unlink (f : String)
deriving DecidableEq

/-- How a command invocation ends abnormally.
`userError` is the path through `helper.printError` — Modelled from the
spec: "error line (colored, terminates the process immediately with a
non-zero status after printing)" (spec section 4.6); the stored string is the
message without its color codes.
`pyExn` is an uncaught Python exception: it propagates out of the handler
and the interpreter prints a traceback (click's standalone mode does not
catch generic exceptions such as `TypeError`). -/
inductive Fatal where
  | userError (msg : String)
  | pyExn (exnName : String)
deriving DecidableEq

/-- True exactly on the foreground engine-invocation effect (the only
mutating engine call `cli_run` can make, line 88). -/
def isEngineEff : Eff → Bool
  | .resticFg _ => true
  | _ => false

/-! ## Modelled helper-module functions -/

/-- The "profile not found" message, as printed by the in-source lookup at
line 157 of `cli_dump`. -/
def noProfileMsg (name : String) : String :=
  "Error: No profile \x27" ++ name ++ "\x27 defined in config"

/-- Modelled from the spec: `helper.getProfileData` (the `helper` module is
not among the sources).  Spec section 4.2: `resolve(config, profileName)`
"fails with a 'profile not found' error (fatal, process exits) if
`profileName` is absent from the configuration's profile mapping. No side
effects."  The message text mirrors the analogous in-source check at
line 157. -/
def getProfileData (cfg : Config) (name : String) : Except String Profile :=
  match assocLookup cfg.profiles name with
  | some p => Except.ok p
  | none => Except.error (noProfileMsg name)

/-- Modelled from the spec: `helper.getBaseResticsArgs` (the `helper` module
is not among the sources).  Spec section 4.3: the base argument list "always
includes the repository address and a cache-directory argument if globally
configured".  The concrete flag spellings are a modelling choice; no claim
below depends on them. -/
def getBaseResticsArgs (cfg : Config) (p : Profile) : List String :=
  ["--repo", p.repo] ++
    (match cfg.cache with
     | some c => ["--cache-dir", c]
     | none => [])

/-- Modelled from the spec: `helper.humanReadable` renders a byte count for
display inside status messages; the spec does not fix the rendering and no
claim depends on it. -/
def humanReadable (n : Nat) : String :=
  toString n ++ " bytes"

/-! ## The include/exclude merge (`cli_run` lines 66-72) and its aliasing -/

/-- The value of the local variable `include` after the group loop of
`cli_run` (lines 67-72): starts from the profile's own list (or a fresh
empty list when the key is absent) and appends each group's list in
mapping-iteration order via `+=`. -/
def runIncludes (p : Profile) : List String :=
  p.groups.foldl (fun acc g => acc ++ (g.2.includes.getD [])) (p.includes.getD [])

/-- The value of the local variable `exclude` after the group loop of
`cli_run` (lines 68-72). -/
def runExcludes (p : Profile) : List String :=
  p.groups.foldl (fun acc g => acc ++ (g.2.excludes.getD [])) (p.excludes.getD [])

/-- The profile object as it stands after the group loop ran.  In Python,
`include = profileData.get("include", [])` (line 67) returns the stored
list object itself when the key is present, and `include += ...` (line 71)
is an in-place `list.extend` on that object — so when the profile defines
its own "include" key, the loop mutates the stored list to the merged
concatenation; when the key is absent the `+=` extends a fresh list and the
profile is untouched.  Likewise for "exclude". -/
def profileAfterMerge (p : Profile) : Profile :=
  { p with
    includes := p.includes.map (fun _ => runIncludes p),
    excludes := p.excludes.map (fun _ => runExcludes p) }

/-- The configuration mapping after `cli_run`'s merge loop executed for the
named profile: `profileData` aliases the entry inside `ctx.obj`, so the
mutation of `profileAfterMerge` lands in the configuration itself. -/
def configAfterRun (cfg : Config) (name : String) : Config :=
  { cfg with
    profiles := cfg.profiles.map
      (fun e => if e.1 = name then (e.1, profileAfterMerge e.2) else e) }

/-! ## The `run` command (`cli_run`, lines 52-94) -/

/-- The dry-run warning printed at lines 60-62. -/
def dryRunWarning : String :=
  "Warning: Running in dry-run mode. Run tool again with \x27--go\x27 option to execute backup."

/-- The full restic argument list built at lines 75-84: base args, the
`backup` verb, `--tag` pairs, `--exclude` pairs, the include paths, then
any extra profile args. -/
def runArgs (cfg : Config) (p : Profile) : List String :=
  getBaseResticsArgs cfg p ++ ["backup"] ++
    ((p.tags.getD []).map (fun tag => ["--tag", tag])).flatten ++
    ((runExcludes p).map (fun pat => ["--exclude", pat])).flatten ++
    runIncludes p ++
    (p.extraArgs.getD [])

/-- The `run PROFILE [--go]` handler (lines 52-94): resolve the profile
(fatal when missing), print the status lines (plus the dry-run warning when
`--go` is absent), build the argument list, then either execute the engine
in the foreground (`--go`) or print the shell-quoted command line. -/
def cli_run (cfg : Config) (go : Bool) (profileName : String) :
    List Eff × Option Fatal :=
  match getProfileData cfg profileName with
  | Except.error e => ([], some (Fatal.userError e))
  | Except.ok profileData =>
    let pre : List Eff :=
      [Eff.line ("Selected profile: " ++ profileName)] ++
        (if go then [] else [Eff.warn dryRunWarning]) ++
        [Eff.line "Beginning backup..."]
    let args := runArgs cfg profileData
    if go then (pre ++ [Eff.resticFg args], none)
    else (pre ++ [Eff.out (shlexJoin args)], none)

/-! ## The group callback (`cli`, lines 27-38) -/

/-- The group callback after the configuration is loaded (lines 34-38): when
the profile mapping is empty it emits the "No profiles defined in config"
message and control returns to click, which goes on to dispatch the chosen
subcommand.  The message is routed through `helper.printError`, whose code
is not among the sources; Modelled from the spec: "If the resulting profile
mapping is empty, emits a non-fatal warning-level error message (current
behavior continues execution rather than halting)" (spec sections 4.1
and 7) — so this branch produces a warning-severity effect and no fatal
outcome. -/
def cli_entry (cfg : Config) : List Eff × Option Fatal :=
  if cfg.profiles.isEmpty then
    ([Eff.warn "Error: No profiles defined in config"], none)
  else ([], none)

/-! ## The `dump` command (`cli_dump`, lines 152-318) -/

/-- The fields of the first parsed snapshot record that `cli_dump` reads
(`json.loads(snapsCommand.stdout)[0]`, line 204), with the timestamp
already normalized and parsed (lines 208-210). -/
structure SnapshotInfo where
  id : String
  short_id : String
  time : Timestamp
deriving DecidableEq

/-- What the outside world answers for one snapshot name: the raw stdout of
the snapshot-listing query (line 201), the parsed first record, the
`total_size` of the stats query (line 238), and the exit codes of the dump
pipeline (line 293) and of the cache-to-destination copy (line 309). -/
structure SnapResult where
  stdout : String
  parsed : SnapshotInfo
  totalSize : Nat
  dumpExit : Int
  copyExit : Int

/-- The environment oracle for one `dump` invocation: which paths exist
(`pathlib.Path.exists`), free disk space per directory
(`shutil.disk_usage(...).free`), and the per-snapshot-name query results. -/
structure DumpEnv where
  dirExists : String → Bool
  free : String → Nat
  snap : String → SnapResult

/-- The values `cli_dump` fixes before its snapshot loop and that the loop
body reads: the base repo arguments (line 165), the profile's repository
address (line 214), the cache and destination directories (lines 168-182),
and whether a distinct cache directory is configured (line 175). -/
structure DumpCtx where
  repoArgs : List String
  repo : String
  cacheDir : String
  destDir : String
  cacheEnabled : Bool

/-- The archive filename derived at lines 212-217:
`f"{repoDirName}_{timestamp}_{latest['short_id']}.tar.zst.aes"` where
`timestamp` is the `%Y%m%d%H%M%S` rendering of the snapshot time and
`repoDirName` is `pathlib.Path(profileData["repo"]).name`. -/
def deriveDumpFilename (repo : String) (t : Timestamp) (shortId : String) : String :=
  let timestamp := strftimeYmdHMS t
  let repoDirName := pathName repo
  repoDirName ++ "_" ++ timestamp ++ "_" ++ shortId ++ ".tar.zst.aes"

/-- The snapshot-listing query arguments built at line 200. -/
def snapsQueryArgs (repoArgs : List String) (name : String) : List String :=
  repoArgs ++ ["--quiet", "snapshots", name, "--json"]

/-- One iteration of the snapshot loop (lines 195-318), in program order:
announce the snapshot, run the captured listing query, abort when its
stdout contains the byte sequence "null" (line 202 — a raw substring test),
derive the archive filename, abort when the cache or destination file
already exists (lines 219-227), run the stats query, abort when either
directory lacks the estimated free space (lines 244-255), run the
extract-meter-compress-encrypt pipeline into the cache file, abort on a
non-zero pipeline exit code, and finally — when a distinct cache directory
is in use — copy to the destination, abort on a non-zero copy exit code,
and delete the cached file. -/
def dumpSnapshot (ctx : DumpCtx) (env : DumpEnv) (name : String) :
    List Eff × Option Fatal :=
  let e0 : List Eff :=
    [Eff.line ("Processing \x27" ++ name ++ "\x27:"),
     Eff.nested ("Querying snapshots for \x27" ++ name ++ "\x27..."),
     Eff.resticCaptured (snapsQueryArgs ctx.repoArgs name)]
  let sr := env.snap name
  if strContains sr.stdout "null" then
    (e0, some (Fatal.userError ("Could not find snapshot: \x27" ++ name ++ "\x27")))
  else
    let latest := sr.parsed
    let filename := deriveDumpFilename ctx.repo latest.time latest.short_id
    let dumpCacheFile := pathJoin ctx.cacheDir filename
    if env.dirExists dumpCacheFile then
      (e0, some (Fatal.userError ("Archive already exists at \x27" ++ dumpCacheFile ++ "\x27")))
    else
      let dumpDestFile := pathJoin ctx.destDir filename
      if env.dirExists dumpDestFile then
        (e0, some (Fatal.userError
          ("Final archive already exists at \x27" ++ dumpDestFile ++ "\x27")))
      else
        let e1 : List Eff := e0 ++
          [Eff.nested ("Using snapshot ID \x27" ++ latest.id.take 8 ++ "\x27"),
           Eff.nested "Querying snapshot size...",
           Eff.resticCaptured (ctx.repoArgs ++ ["--quiet", "stats", latest.id, "--json"]),
           Eff.nested ("Archive should be no larger than (approx.) " ++
             humanReadable sr.totalSize)]
        let latestSize := sr.totalSize
        if env.free ctx.cacheDir < latestSize then
          (e1, some (Fatal.userError
            ("Error: Dump archive needs at least " ++ humanReadable latestSize ++
              ", but directory only has " ++ humanReadable (env.free ctx.cacheDir) ++ " free")))
        else if env.free ctx.destDir < latestSize then
          (e1, some (Fatal.userError
            ("Error: Dump archive needs at least " ++ humanReadable latestSize ++
              ", but destination directory only has " ++
              humanReadable (env.free ctx.destDir) ++ " free")))
        else
          let e2 : List Eff := e1 ++
            [Eff.nested "Creating archive... (compression and encryption enabled)",
             Eff.out ("Dumping to " ++ dumpCacheFile),
             Eff.dumpPipe (ctx.repoArgs ++ ["dump", latest.id, "/"]) dumpCacheFile]
          if sr.dumpExit ≠ 0 then
            (e2, some (Fatal.userError
              ("Dump command returned with error code " ++ toString sr.dumpExit ++
                ". Aborting.")))
          else if ctx.cacheEnabled then
            let e3 : List Eff := e2 ++
              [Eff.nested "Moving archive to final destination...",
               Eff.copyFile dumpCacheFile dumpDestFile]
            if sr.copyExit ≠ 0 then
              (e3, some (Fatal.userError
                ("Copy command returned with error code " ++ toString sr.copyExit ++
                  ". Aborting.")))
            else
              (e3 ++ [Eff.unlink dumpCacheFile,
                Eff.nested ("Success! Archive is now available at " ++ dumpDestFile)], none)
          else
            (e2 ++ [Eff.nested ("Success! Archive is now available at " ++ dumpDestFile)],
              none)

/-- The snapshot loop of lines 194-318: process the names in order, stopping
at the first fatal outcome (a `helper.printError` exits the process; an
uncaught exception propagates). -/
def dumpLoop (ctx : DumpCtx) (env : DumpEnv) : List String → List Eff × Option Fatal
  | [] => ([], none)
  | n :: rest =>
    match dumpSnapshot ctx env n with
    | (es, some f) => (es, some f)
    | (es, none) =>
      let r := dumpLoop ctx env rest
      (es ++ r.1, r.2)

/-- The `dump DESTINATION PROFILE [SNAPSHOTS...]` handler (lines 152-318),
up to and including its snapshot loop.  The preamble in program order:
profile lookup (lines 156-158), dump-options presence check — Python's
truthiness test at line 161 treats both an absent key and an empty mapping
as missing, an empty `DumpOptions` mapping being one with neither key —
destination-directory existence check (lines 168-172), cache-directory
resolution (lines 175-182), and the password-file path construction at
line 184: `pathlib.Path(dumpConfig.get("passwordFile", None))` — when the
"passwordFile" key is absent this calls `pathlib.Path(None)`, which raises
`TypeError`; nothing in the handler or in click's standalone mode catches
it, so it surfaces as a Python traceback, not as a `printError` message.
Then the default snapshot list (lines 187-188), the two startup status
lines (lines 191-192), and the loop. -/
def cli_dump (cfg : Config) (env : DumpEnv) (destination : String)
    (profileName : String) (snapshots : List String) : List Eff × Option Fatal :=
  match assocLookup cfg.profiles profileName with
  | none => ([], some (Fatal.userError (noProfileMsg profileName)))
  | some profileData =>
    match cfg.dump with
    | none => ([], some (Fatal.userError "Error: No dump options defined in config"))
    | some dumpConfig =>
      if dumpConfig.cache = none ∧ dumpConfig.passwordFile = none then
        ([], some (Fatal.userError "Error: No dump options defined in config"))
      else
        let repoArgs := getBaseResticsArgs cfg profileData
        let dumpDestDir := expanduser destination
        if !(env.dirExists dumpDestDir) then
          ([], some (Fatal.userError
            ("Destination directory \x27" ++ dumpDestDir ++ "\x27 does not exist")))
        else
          let cacheEnabled := dumpConfig.cache.isSome
          let dumpCacheDir :=
            if cacheEnabled then expanduser (dumpConfig.cache.getD (cfg.cache.getD "~"))
            else dumpDestDir
          match dumpConfig.passwordFile with
          | none => ([], some (Fatal.pyExn "TypeError"))
          | some _pw =>
            let snaps := if snapshots.isEmpty then ["latest"] else snapshots
            let ctx : DumpCtx :=
              { repoArgs := repoArgs, repo := profileData.repo,
                cacheDir := dumpCacheDir, destDir := dumpDestDir,
                cacheEnabled := cacheEnabled }
            let startup : List Eff :=
              [Eff.line ("Selected profile: " ++ profileName),
               Eff.line ("Selected snapshots: " ++ String.intercalate ", " snaps)]
            let r := dumpLoop ctx env snaps
            (startup ++ r.1, r.2)

/-! ## Helper lemmas -/

theorem foldl_append_flatten {α β : Type} (f : α → List β) :
    ∀ (l : List α) (init : List β),
      l.foldl (fun acc g => acc ++ f g) init = init ++ (l.map f).flatten := by
  intro l
  induction l with
  | nil => intro init; simp
  | cons a as ih =>
    intro init
    simp only [List.foldl_cons, List.map_cons, List.flatten_cons, ih, List.append_assoc]

theorem charsStartWith_append (p l r : List Char)
    (h : charsStartWith p l = true) : charsStartWith p (l ++ r) = true := by
  induction p generalizing l with
  | nil => simp [charsStartWith]
  | cons a as ih =>
    cases l with
    | nil => simp [charsStartWith] at h
    | cons b bs =>
      simp only [charsStartWith, Bool.and_eq_true, beq_iff_eq] at h
      simp only [List.cons_append, charsStartWith, Bool.and_eq_true, beq_iff_eq]
      exact ⟨h.1, ih bs h.2⟩

theorem charsContain_nil_pat (l : List Char) : charsContain l [] = true := by
  cases l <;> rfl

theorem charsContain_append_left (l r p : List Char)
    (h : charsContain l p = true) : charsContain (l ++ r) p = true := by
  induction l with
  | nil =>
    cases p with
    | nil => exact charsContain_nil_pat r
    | cons q qs => simp [charsContain] at h
  | cons c cs ih =>
    cases p with
    | nil => exact charsContain_nil_pat _
    | cons q qs =>
      simp only [charsContain, Bool.or_eq_true] at h
      simp only [List.cons_append, charsContain, Bool.or_eq_true]
      rcases h with h | h
      · exact Or.inl (by simpa using charsStartWith_append (q :: qs) (c :: cs) r h)
      · exact Or.inr (ih h)

theorem strContains_append_right (s t p : String)
    (h : strContains s p = true) : strContains (s ++ t) p = true := by
  obtain ⟨sd⟩ := s
  obtain ⟨td⟩ := t
  obtain ⟨pd⟩ := p
  exact charsContain_append_left sd td pd h

/-! ## Claim C1: merged include and exclude lists are ordered concatenations -/

/-- C1: for every profile, the effective include (resp. exclude) list built
by `cli_run` (lines 66-72) equals the profile's own list followed by each
group's list in mapping-iteration order — list concatenation with
duplicates and order preserved, not set union. -/
theorem c1_merged_lists (p : Profile) :
    runIncludes p =
      p.includes.getD [] ++ (p.groups.map (fun g => g.2.includes.getD [])).flatten
    ∧ runExcludes p =
      p.excludes.getD [] ++ (p.groups.map (fun g => g.2.excludes.getD [])).flatten :=
  ⟨foldl_append_flatten _ p.groups _, foldl_append_flatten _ p.groups _⟩

/-! ## Claim C3: the configuration is not left unchanged by the merge -/

/-- The profile of the C3 counterexample: its own include list `["/a"]` and
one group contributing `["/b"]`. -/
def profileC3 : Profile :=
  { repo := "/r", tags := none, includes := some ["/a"], excludes := none,
    extraArgs := none, groups := [("g", { includes := some ["/b"], excludes := none })] }

/-- The configuration of the C3 counterexample. -/
def cfgC3 : Config :=
  { cache := none, profiles := [("p", profileC3)], dump := none }

/-- C3 counterexample: resolving the merged lists for profile `p` of
`cfgC3` does not leave the configuration mapping unchanged — the group's
include pattern is appended in place to the profile's stored include list
(`["/a"]` becomes `["/a", "/b"]`), refuting the claim at this concrete
input. -/
theorem c3_config_mutated : configAfterRun cfgC3 "p" ≠ cfgC3 := by decide

/-- C3 amended: the merge leaves a profile (and hence the configuration)
unchanged exactly when each of its stored include/exclude lists is either
absent or already equal to the merged concatenation (in particular whenever
every group contributes an empty list); otherwise the group patterns are
appended in place to the profile's stored lists. -/
theorem c3_amended_merge_fixpoint (p : Profile) :
    profileAfterMerge p = p ↔
      ((p.includes = none ∨ runIncludes p = p.includes.getD []) ∧
       (p.excludes = none ∨ runExcludes p = p.excludes.getD [])) := by
  obtain ⟨r, t, inc, exc, a, g⟩ := p
  unfold profileAfterMerge
  cases inc <;> cases exc <;>
    simp only [Profile.mk.injEq, Option.map_none', Option.map_some', Option.some.injEq,
      Option.getD_some, Option.getD_none, reduceCtorEq, false_or, or_false, true_and,
      and_true, and_self, iff_self_and, true_iff, iff_true] <;>
    tauto

/-! ## Claim C2: empty profile mapping warns and continues -/

/-- A default snapshot-query answer, for environments whose query results
are never reached. -/
def snapResultBlank : SnapResult :=
  { stdout := "", parsed := { id := "", short_id := "", time := ⟨0, 0, 0, 0, 0, 0⟩ },
    totalSize := 0, dumpExit := 0, copyExit := 0 }

/-- An environment for exercising invocations that fail before consulting
the outside world. -/
def envBlank : DumpEnv :=
  { dirExists := fun _ => true, free := fun _ => 0, snap := fun _ => snapResultBlank }

/-- A configuration whose profile mapping is empty. -/
def cfgEmpty : Config :=
  { cache := none, profiles := [], dump := none }

/-- C2: with zero profiles configured, the entry callback emits the
non-fatal warning-severity message and continues (no fatal outcome), and a
subsequent `run` or `dump` invocation fails with the "profile not found"
message rather than crashing with an exception. -/
theorem c2_empty_profiles_warn_continue (cfg : Config) (h : cfg.profiles = []) :
    cli_entry cfg = ([Eff.warn "Error: No profiles defined in config"], none)
    ∧ (∀ go name, cli_run cfg go name = ([], some (Fatal.userError (noProfileMsg name))))
    ∧ (∀ env dst name snaps,
        cli_dump cfg env dst name snaps = ([], some (Fatal.userError (noProfileMsg name)))) := by
  refine ⟨?_, ?_, ?_⟩
  · simp [cli_entry, h]
  · intro go name
    simp [cli_run, getProfileData, h, assocLookup]
  · intro env dst name snaps
    simp [cli_dump, h, assocLookup]

/-- C2 witness: the theorem at the empty configuration, a concrete `run`
invocation and a concrete `dump` invocation. -/
theorem c2_empty_profiles_warn_continue_witness :
    cli_entry cfgEmpty = ([Eff.warn "Error: No profiles defined in config"], none)
    ∧ cli_run cfgEmpty false "myprofile"
        = ([], some (Fatal.userError (noProfileMsg "myprofile")))
    ∧ cli_dump cfgEmpty envBlank "/dest" "myprofile" []
        = ([], some (Fatal.userError (noProfileMsg "myprofile"))) :=
  ⟨(c2_empty_profiles_warn_continue cfgEmpty rfl).1,
   (c2_empty_profiles_warn_continue cfgEmpty rfl).2.1 false "myprofile",
   (c2_empty_profiles_warn_continue cfgEmpty rfl).2.2 envBlank "/dest" "myprofile" []⟩

/-! ## Claim C4: the engine runs exactly under `--go` -/

/-- C4: the `run` handler invokes the backup engine exactly when `--go` is
given (and the profile resolves); without `--go` no engine effect occurs
and the handler ends with a single printed line carrying the shell-quoted
equivalent command. -/
theorem c4_engine_iff_go (cfg : Config) (go : Bool) (name : String) :
    ((cli_run cfg go name).1.any isEngineEff)
      = (go && (assocLookup cfg.profiles name).isSome)
    ∧ (∀ p, assocLookup cfg.profiles name = some p →
        cli_run cfg false name =
          ([Eff.line ("Selected profile: " ++ name), Eff.warn dryRunWarning,
            Eff.line "Beginning backup...", Eff.out (shlexJoin (runArgs cfg p))], none)) := by
  constructor
  · cases h : assocLookup cfg.profiles name <;> cases go <;>
      simp [cli_run, getProfileData, h, isEngineEff]
  · intro p hp
    simp [cli_run, getProfileData, hp]

/-- The profile of the specification's end-to-end `run` example. -/
def profileC5 : Profile :=
  { repo := "/mnt/backup", tags := none, includes := some ["/home"],
    excludes := some ["/home/cache"], extraArgs := none, groups := [] }

/-- The configuration of the specification's end-to-end `run` example. -/
def cfgC5 : Config :=
  { cache := none, profiles := [("myprofile", profileC5)], dump := none }

/-- C4 witness: the dry-run invocation on the concrete example
configuration produces exactly the status lines plus the one shell-quoted
command line, and no fatal outcome. -/
theorem c4_engine_iff_go_witness :
    cli_run cfgC5 false "myprofile" =
      ([Eff.line ("Selected profile: " ++ "myprofile"), Eff.warn dryRunWarning,
        Eff.line "Beginning backup...",
        Eff.out (shlexJoin (runArgs cfgC5 profileC5))], none) :=
  (c4_engine_iff_go cfgC5 false "myprofile").2 profileC5 (by decide)

/-! ## Claim C5: the end-to-end dry-run example -/

/-- C5: on the profile `repo : /mnt/backup`, include `[/home]`, exclude
`[/home/cache]`, a dry-run `run` produces exactly the three status lines
plus one printed command line; that line contains
`backup --exclude /home/cache /home` (excludes after the `backup` verb and
before the include paths) prefixed by the base repository arguments, and no
engine invocation occurs. -/
theorem c5_dry_run_example :
    cli_run cfgC5 false "myprofile" =
      ([Eff.line "Selected profile: myprofile", Eff.warn dryRunWarning,
        Eff.line "Beginning backup...",
        Eff.out "--repo /mnt/backup backup --exclude /home/cache /home"], none)
    ∧ strContains "--repo /mnt/backup backup --exclude /home/cache /home"
        "backup --exclude /home/cache /home" = true
    ∧ (cli_run cfgC5 false "myprofile").1.any isEngineEff = false := by
  decide

/-! ## Claim C6: the dump archive filename is deterministic and formatted -/

/-- C6: the derived dump-archive name (lines 212-217) is
`{repository-basename}_{timestamp rendered as %Y%m%d%H%M%S}_{short-id}.tar.zst.aes`,
and deriving it twice for equal (repository, timestamp, short-id) triples
yields the identical string. -/
theorem c6_filename_deterministic (repo : String) (t : Timestamp) (sid : String)
    (repo2 : String) (t2 : Timestamp) (sid2 : String)
    (h1 : repo = repo2) (h2 : t = t2) (h3 : sid = sid2) :
    deriveDumpFilename repo t sid
      = pathName repo ++ "_" ++ strftimeYmdHMS t ++ "_" ++ sid ++ ".tar.zst.aes"
    ∧ deriveDumpFilename repo t sid = deriveDumpFilename repo2 t2 sid2 := by
  subst h1
  subst h2
  subst h3
  exact ⟨rfl, rfl⟩

/-- The example snapshot timestamp 2024-01-02 03:04:05. -/
def tsC6 : Timestamp := ⟨2024, 1, 2, 3, 4, 5⟩

/-- C6 witness: the derivation at a concrete triple, evaluated to its
literal result, together with the determinism conclusion of the theorem at
that triple. -/
theorem c6_filename_deterministic_witness :
    deriveDumpFilename "/mnt/backup" tsC6 "abcd1234"
      = "backup_20240102030405_abcd1234.tar.zst.aes"
    ∧ deriveDumpFilename "/mnt/backup" tsC6 "abcd1234"
      = deriveDumpFilename "/mnt/backup" tsC6 "abcd1234" :=
  ⟨by decide,
   (c6_filename_deterministic "/mnt/backup" tsC6 "abcd1234" "/mnt/backup" tsC6 "abcd1234"
      rfl rfl rfl).2⟩

/-! ## Claim C7: an existing archive file aborts before the pipeline -/

/-- C7: when the snapshot query succeeded (its stdout is free of the byte
sequence "null") and a file with the derived archive name already exists at
the cache path or at the destination path, the snapshot processing ends
fatally with a message containing "already exists", having performed only
the two status prints and the captured listing query — no pipeline stage,
no copy, no deletion, hence no existing file is overwritten. -/
theorem c7_existing_archive_fatal (ctx : DumpCtx) (env : DumpEnv) (name : String)
    (hnull : strContains (env.snap name).stdout "null" = false)
    (hex : env.dirExists (pathJoin ctx.cacheDir
             (deriveDumpFilename ctx.repo (env.snap name).parsed.time
               (env.snap name).parsed.short_id)) = true
         ∨ env.dirExists (pathJoin ctx.destDir
             (deriveDumpFilename ctx.repo (env.snap name).parsed.time
               (env.snap name).parsed.short_id)) = true) :
    ∃ m, dumpSnapshot ctx env name =
        ([Eff.line ("Processing \x27" ++ name ++ "\x27:"),
          Eff.nested ("Querying snapshots for \x27" ++ name ++ "\x27..."),
          Eff.resticCaptured (snapsQueryArgs ctx.repoArgs name)],
         some (Fatal.userError m))
      ∧ strContains m "already exists" = true := by
  cases hc : env.dirExists (pathJoin ctx.cacheDir
      (deriveDumpFilename ctx.repo (env.snap name).parsed.time
        (env.snap name).parsed.short_id)) with
  | true =>
    refine ⟨"Archive already exists at \x27" ++ pathJoin ctx.cacheDir
        (deriveDumpFilename ctx.repo (env.snap name).parsed.time
          (env.snap name).parsed.short_id) ++ "\x27", ?_, ?_⟩
    · simp [dumpSnapshot, hnull, hc]
    · exact strContains_append_right _ "\x27" _
        (strContains_append_right "Archive already exists at \x27" _ _ (by decide))
  | false =>
    have hd : env.dirExists (pathJoin ctx.destDir
        (deriveDumpFilename ctx.repo (env.snap name).parsed.time
          (env.snap name).parsed.short_id)) = true := by
      rcases hex with h | h
      · rw [hc] at h
        cases h
      · exact h
    refine ⟨"Final archive already exists at \x27" ++ pathJoin ctx.destDir
        (deriveDumpFilename ctx.repo (env.snap name).parsed.time
          (env.snap name).parsed.short_id) ++ "\x27", ?_, ?_⟩
    · simp [dumpSnapshot, hnull, hc, hd]
    · exact strContains_append_right _ "\x27" _
        (strContains_append_right "Final archive already exists at \x27" _ _ (by decide))

/-- A snapshot-query answer describing an existing snapshot (valid JSON,
no "null" anywhere in it). -/
def snapResultC7 : SnapResult :=
  { stdout := "[\x7b\"short_id\":\"dead\"\x7d]",
    parsed := { id := "deadbeefcafe", short_id := "dead", time := tsC6 },
    totalSize := 10, dumpExit := 0, copyExit := 0 }

/-- An environment in which every path exists — in particular the derived
archive file already exists at the cache path. -/
def envC7 : DumpEnv :=
  { dirExists := fun _ => true, free := fun _ => 0, snap := fun _ => snapResultC7 }

/-- The loop context of the C7 witness. -/
def ctxC7 : DumpCtx :=
  { repoArgs := ["--repo", "/mnt/backup"], repo := "/mnt/backup",
    cacheDir := "/cache", destDir := "/dest", cacheEnabled := true }

/-- C7 witness: with the derived archive file already present, processing
snapshot "latest" stops fatally on an "already exists" message after the
listing query only. -/
theorem c7_existing_archive_fatal_witness :
    ∃ m, dumpSnapshot ctxC7 envC7 "latest" =
        ([Eff.line ("Processing \x27" ++ "latest" ++ "\x27:"),
          Eff.nested ("Querying snapshots for \x27" ++ "latest" ++ "\x27..."),
          Eff.resticCaptured (snapsQueryArgs ctxC7.repoArgs "latest")],
         some (Fatal.userError m))
      ∧ strContains m "already exists" = true :=
  c7_existing_archive_fatal ctxC7 envC7 "latest" (by decide) (Or.inl (by decide))

/-! ## Claim C8: a null listing response is a fatal "snapshot not found" -/

/-- C8: when the captured snapshot-listing stdout is the explicit null
response, the processing of that snapshot ends immediately — only the two
status prints and the listing query happened, so the response is never
parsed — with the fatal "Could not find snapshot" message. -/
theorem c8_null_response_fatal (ctx : DumpCtx) (env : DumpEnv) (name : String)
    (h : (env.snap name).stdout = "null") :
    dumpSnapshot ctx env name =
      ([Eff.line ("Processing \x27" ++ name ++ "\x27:"),
        Eff.nested ("Querying snapshots for \x27" ++ name ++ "\x27..."),
        Eff.resticCaptured (snapsQueryArgs ctx.repoArgs name)],
       some (Fatal.userError ("Could not find snapshot: \x27" ++ name ++ "\x27"))) := by
  have hc : strContains (env.snap name).stdout "null" = true := by
    rw [h]
    decide
  simp [dumpSnapshot, hc]

/-- The environment of the C8 witness: the listing query answers the
literal null response. -/
def envC8 : DumpEnv :=
  { dirExists := fun _ => false, free := fun _ => 0,
    snap := fun _ => { snapResultBlank with stdout := "null" } }

/-- C8 witness: the theorem at a concrete environment whose listing stdout
is exactly "null". -/
theorem c8_null_response_fatal_witness :
    dumpSnapshot ctxC7 envC8 "latest" =
      ([Eff.line ("Processing \x27" ++ "latest" ++ "\x27:"),
        Eff.nested ("Querying snapshots for \x27" ++ "latest" ++ "\x27..."),
        Eff.resticCaptured (snapsQueryArgs ctxC7.repoArgs "latest")],
       some (Fatal.userError ("Could not find snapshot: \x27" ++ "latest" ++ "\x27"))) :=
  c8_null_response_fatal ctxC7 envC8 "latest" (by decide)

/-! ## Claim C10: the not-found test is a raw substring check -/

/-- C10: the snapshot-existence test of line 202 is a raw substring check on
the captured stdout — whenever the byte sequence "null" occurs anywhere in
it, including inside field values of a valid JSON record of an existing
snapshot, the snapshot processing aborts fatally with "Could not find
snapshot" after the listing query, without parsing the response. -/
theorem c10_raw_substring_check (ctx : DumpCtx) (env : DumpEnv) (name : String)
    (h : strContains (env.snap name).stdout "null" = true) :
    dumpSnapshot ctx env name =
      ([Eff.line ("Processing \x27" ++ name ++ "\x27:"),
        Eff.nested ("Querying snapshots for \x27" ++ name ++ "\x27..."),
        Eff.resticCaptured (snapsQueryArgs ctx.repoArgs name)],
       some (Fatal.userError ("Could not find snapshot: \x27" ++ name ++ "\x27"))) := by
  simp [dumpSnapshot, h]

/-- The environment of the C10 witness: the listing query answers a valid
JSON array describing an existing snapshot whose hostname field happens to
contain the letters "null". -/
def envC10 : DumpEnv :=
  { dirExists := fun _ => false, free := fun _ => 0,
    snap := fun _ =>
      { snapResultBlank with
        stdout := "[\x7b\"hostname\":\"nullserver\",\"short_id\":\"dead\",\"paths\":[\"/home\"]\x7d]",
        parsed := { id := "deadbeefcafe", short_id := "dead", time := tsC6 } } }

/-- C10 witness: on a well-formed listing response for an existing snapshot
whose hostname is "nullserver", processing still aborts with the fatal
"Could not find snapshot" message. -/
theorem c10_raw_substring_check_witness :
    dumpSnapshot ctxC7 envC10 "latest" =
      ([Eff.line ("Processing \x27" ++ "latest" ++ "\x27:"),
        Eff.nested ("Querying snapshots for \x27" ++ "latest" ++ "\x27..."),
        Eff.resticCaptured (snapsQueryArgs ctxC7.repoArgs "latest")],
       some (Fatal.userError ("Could not find snapshot: \x27" ++ "latest" ++ "\x27"))) :=
  c10_raw_substring_check ctxC7 envC10 "latest" (by decide)

/-! ## Claim C9: a missing password-file entry crashes with a traceback -/

/-- The profile of the C9 failing input. -/
def profileC9 : Profile :=
  { repo := "/repo", tags := none, includes := none, excludes := none,
    extraArgs := none, groups := [] }

/-- The C9 failing input: a well-formed configuration whose dump options
carry a cache directory but no "passwordFile" entry. -/
def cfgC9 : Config :=
  { cache := none, profiles := [("p", profileC9)],
    dump := some { cache := some "/cachedir", passwordFile := none } }

/-- The environment of the C9 failing input: the destination directory
exists; nothing else is ever consulted. -/
def envC9 : DumpEnv :=
  { dirExists := fun s => s == "/dest", free := fun _ => 0,
    snap := fun _ => snapResultBlank }

/-- C9 (the code, evaluated at the failing input): with the "passwordFile"
entry absent from the dump options, `dump /dest p latest` reaches line 184,
where `pathlib.Path(None)` raises `TypeError`; the invocation ends as an
uncaught Python exception (interpreter traceback), not as a
`helper.printError` user-facing colored message — contradicting the claimed
error handling. -/
theorem c9_missing_password_file_uncaught :
    cli_dump cfgC9 envC9 "/dest" "p" ["latest"] = ([], some (Fatal.pyExn "TypeError")) := by
  decide

end Spgill
